import Mathlib

/-!
Verification development for the onvifscout snapshot-acquisition pipeline.

The definitions below are a shallow embedding of the Python sources:
  * `onvifscout/device_contexts.py`  (vendor profile catalog and matcher)
  * `onvifscout/snapshot.py`         (legacy prober and orchestrator)
  * `onvifscout/snapshot/base.py`    (hardened prober)
  * `onvifscout/snapshot/profile.py` (media profile and stream-URL handling)

Strings are modelled by Lean `String`; Python byte strings by `List Nat`
(one entry per byte); HTTP and SOAP traffic by explicit response values or
oracle functions passed as parameters.
-/

namespace OnvifScout

/-! ## Python string primitives

`charLower` mirrors `str.lower` on the ASCII range (all catalog data is
ASCII).  `startsL`/`inL` mirror `str.startswith` and the substring test
`needle in hay`. -/

def charLower (c : Char) : Char :=
  if 65 ≤ c.toNat && c.toNat ≤ 90 then Char.ofNat (c.toNat + 32) else c

def pyLower (s : String) : String :=
  String.mk (s.data.map charLower)

def startsL {α : Type} [BEq α] : List α → List α → Bool
  | [], _ => true
  | _ :: _, [] => false
  | a :: as, b :: bs => a == b && startsL as bs

def inL {α : Type} [BEq α] (needle : List α) : List α → Bool
  | [] => needle.isEmpty
  | b :: bs => startsL needle (b :: bs) || inL needle bs

/-- Python `s.startswith(pre)`. -/
def pyStarts (s pre : String) : Bool := startsL pre.data s.data

/-- Python `needle in hay` (substring containment). -/
def pyIn (needle hay : String) : Bool := inL needle.data hay.data

/-! ## `device_contexts.py` -/

/-- The `DeviceContext` dataclass. -/
structure DeviceContext where
  name : String
  ports : List Nat
  paths : List String
  keywords : List String
  auth_modes : List String
  media_services : List String
deriving DecidableEq, Repr

/-- `DeviceContext.matches`: the device name is lowercased, then any
lowercased keyword is looked up as a substring. -/
def DeviceContext.matches (ctx : DeviceContext) (device_name : String) : Bool :=
  let dn := pyLower device_name
  ctx.keywords.any (fun keyword => pyIn (pyLower keyword) dn)

def tpLinkContext : DeviceContext :=
  { name := "TP-Link"
    keywords := ["tp-link", "tplink", "vigi"]
    ports := [2020, 80, 8080, 554]
    paths :=
      [ "/onvif/snapshot"
      , "/onvif/media/snapshot"
      , "/onvif/media1/snapshot"
      , "/onvif/media2/snapshot"
      , "/onvif/media3/snapshot"
      , "/onvif/media_service/snapshot"
      , "/onvif/device_service/snapshot"
      , "/onvif/event_service/snapshot"
      , "/onvif/snapshot/jpeg"
      , "/media/snapshot/stream"
      , "/stream/snap"
      , "/stream/snapshot" ]
    auth_modes := ["Digest", "Basic"]
    media_services := ["/onvif/media_service", "/onvif/device_service", "/onvif/service"] }

def cpPlusContext : DeviceContext :=
  { name := "CP-Plus"
    keywords := ["cp-plus", "cp plus", "cpplus"]
    ports := [80, 8000, 8080, 554]
    paths :=
      [ "/onvif/media_service/snapshot"
      , "/onvif/streaming/channels/1/picture"
      , "/onvif/snap.jpg"
      , "/picture/1/current"
      , "/picture.jpg"
      , "/picture/1"
      , "/images/snapshot.jpg"
      , "/cgi-bin/snapshot.cgi"
      , "/cgi-bin/snapshot"
      , "/jpeg"
      , "/jpg/1/image.jpg"
      , "/snap" ]
    auth_modes := ["Digest", "Basic"]
    media_services := ["/onvif/media_service", "/onvif/streaming", "/media"] }

def hikvisionContext : DeviceContext :=
  { name := "Hikvision"
    keywords := ["hikvision", "hik"]
    ports := [80, 8000, 554]
    paths :=
      [ "/ISAPI/Streaming/channels/101/picture"
      , "/ISAPI/Streaming/channels/1/picture"
      , "/Streaming/channels/1/picture"
      , "/onvif/snapshot"
      , "/onvif-http/snapshot" ]
    auth_modes := ["Digest", "Basic"]
    media_services := ["/ISAPI/Streaming", "/onvif/media_service"] }

def dahuaContext : DeviceContext :=
  { name := "Dahua"
    keywords := ["dahua"]
    ports := [80, 8080, 554]
    paths :=
      [ "/cgi-bin/snapshot.cgi"
      , "/cgi-bin/snapshot.cgi?channel=1"
      , "/cgi-bin/snapManager.cgi?action=attachFileProc&Flags=1"
      , "/snapshot/1"
      , "/cgi-bin/snapshot" ]
    auth_modes := ["Digest", "Basic"]
    media_services := ["/onvif/media_service", "/cgi-bin"] }

def genericContext : DeviceContext :=
  { name := "Generic"
    keywords := []
    ports := [80, 8080, 554]
    paths :=
      [ "/onvif-http/snapshot"
      , "/onvif/camera/1/snapshot"
      , "/snap.jpg"
      , "/snapshot"
      , "/image"
      , "/image/jpeg.cgi"
      , "/cgi-bin/snapshot.cgi"
      , "/snapshot.jpg"
      , "/jpeg"
      , "/video.mjpg"
      , "/cgi-bin/api.cgi?cmd=Snap&channel=1" ]
    auth_modes := ["Digest", "Basic"]
    media_services := ["/onvif/media_service", "/onvif/device_service"] }

/-- `DEVICE_CONTEXTS.values()` in dict insertion order. -/
def DEVICE_CONTEXTS : List DeviceContext :=
  [tpLinkContext, cpPlusContext, hikvisionContext, dahuaContext, genericContext]

/-- `DeviceContextManager.get_context`. -/
def get_context (device_name : String) : DeviceContext :=
  if device_name = "" then genericContext
  else
    match DEVICE_CONTEXTS.find? (fun ctx => ctx.matches device_name) with
    | some ctx => ctx
    | none => genericContext

/-- `dict.fromkeys` key sequence: keeps the first occurrence of each string,
in the original order; `seen` accumulates the keys already emitted. -/
def dictFromKeysGo : List String → List String → List String
  | [], _ => []
  | x :: rest, seen =>
      if seen.contains x then dictFromKeysGo rest seen
      else x :: dictFromKeysGo rest (x :: seen)

/-- `list(dict.fromkeys(l))`. -/
def dictFromKeys (l : List String) : List String := dictFromKeysGo l []

/-- `DeviceContextManager.get_all_paths`. -/
def get_all_paths (ctx : DeviceContext) : List String :=
  let paths := ctx.paths ++ (if pyLower ctx.name ≠ "generic" then genericContext.paths else [])
  dictFromKeys paths

/-- Spec-side definition, for comparison with `get_all_paths`: duplicates
removed keeping the first occurrence, preserving the original relative
order (an element at position `i` is kept exactly when it does not occur
earlier in the list). -/
def specDedupKeepFirst (l : List String) : List String :=
  (l.enum.filter (fun p => !((l.take p.1).contains p.2))).map Prod.snd

/-! ## HTTP model

An HTTP response is modelled by its status code, its declared
`content-type` header, its declared `content-length` header (`0` when the
header is missing, as in `headers.get("content-length", "0")`), and its
body bytes. -/

structure HttpResp where
  status : Nat
  contentType : String
  contentLength : Nat
  body : List Nat
deriving DecidableEq, Repr

/-- `ONVIFSnapshot._try_snapshot_url` (snapshot.py, legacy prober),
restricted to the classification of a received response: hit iff status is
200, the declared content type starts with `image/`, and the declared
content length exceeds 1000.  (In the source a transport exception makes
the function return `False` via the surrounding handler; the embedding
takes the received response directly.) -/
def try_snapshot_url_legacy (response : HttpResp) : Bool :=
  if response.status == 200 then
    if pyStarts response.contentType "image/" ∧ response.contentLength > 1000 then true
    else false
  else false

/-- `ONVIFSnapshotBase._is_valid_image` (base.py): JPEG `FF D8 FF` or PNG
`89 50 4E 47 0D 0A 1A 0A` signature at the start of the data. -/
def _is_valid_image (data : List Nat) : Bool :=
  if startsL [0xff, 0xd8, 0xff] data then true
  else if startsL [0x89, 0x50, 0x4e, 0x47, 0x0d, 0x0a, 0x1a, 0x0a] data then true
  else false

/-- Classification step of `ONVIFSnapshotBase._try_snapshot_url`
(base.py lines 84-96): on status 200, first `"image/" in
content_type.lower()`, and only inside that branch the byte-signature
check; a hit returns the body bytes. -/
def classify_response_base (response : HttpResp) : Option (List Nat) :=
  if response.status == 200 then
    if pyIn "image/" (pyLower response.contentType) then
      if _is_valid_image response.body then some response.body else none
    else none
  else none

/-! ## `ONVIFSnapshot._try_device_urls` (snapshot.py) -/

/-- The URL built at snapshot.py line 224:
`f"{parsed.scheme}://{device_host}:{port}{path}"`. -/
def probe_url (scheme host : String) (port : Nat) (path : String) : String :=
  scheme ++ "://" ++ host ++ ":" ++ toString port ++ path

/-- Inner loop over paths for one port; `hit url` models
`self._try_snapshot_url(url, auth, headers)`. -/
def try_paths (scheme host : String) (hit : String → Bool) (port : Nat) :
    List String → Option String
  | [] => none
  | path :: rest =>
      let url := probe_url scheme host port path
      if hit url then some url else try_paths scheme host hit port rest

/-- Outer loop over ports. -/
def try_ports (scheme host : String) (hit : String → Bool) (paths : List String) :
    List Nat → Option String
  | [] => none
  | port :: rest =>
      match try_paths scheme host hit port paths with
      | some url => some url
      | none => try_ports scheme host hit paths rest

/-- The probe port list built at snapshot.py line 219:
`[device_port] + [p for p in context.ports if p != device_port]`. -/
def probe_ports (device_port : Nat) (ctx : DeviceContext) : List Nat :=
  device_port :: ctx.ports.filter (fun p => p ≠ device_port)

/-- `ONVIFSnapshot._try_device_urls`: `scheme`, `host` and `device_port`
come from `urlparse(device.urls[0])` (the device URL is assumed to carry
an explicit port, as the discovery layer produces). -/
def try_device_urls (scheme host : String) (device_port : Nat) (ctx : DeviceContext)
    (hit : String → Bool) : Option String :=
  let ports := probe_ports device_port ctx
  let paths := get_all_paths ctx
  try_ports scheme host hit paths ports

/-- All candidate URLs in probe order (ports outer, paths inner), used to
state the first-hit property of `try_device_urls`. -/
def probe_combos (scheme host : String) (device_port : Nat) (ctx : DeviceContext) :
    List String :=
  (probe_ports device_port ctx).flatMap
    (fun port => (get_all_paths ctx).map (fun path => probe_url scheme host port path))

/-! ## `MediaProfileHandler.normalize_rtsp_url` (profile.py) -/

/-- `MediaProfileHandler.normalize_rtsp_url`.  `urlparse` is modelled for
URLs of shape `rtsp://netloc/path`: the netloc runs to the first slash
after the scheme, `hostname` is the netloc up to the colon (lowercased,
as `urlparse` does), the port is whatever follows the colon; query and
fragment splitting is not modelled (no normalized URI carries them). -/
def normalize_rtsp_url (url device_host : String) : String :=
  if !(pyStarts url "rtsp://") then
    "rtsp://" ++ device_host ++ ":554" ++ (if pyStarts url "/" then url else "/" ++ url)
  else
    let rest := url.data.drop 7
    let netloc := rest.takeWhile (fun c => c ≠ '/')
    let path : String := String.mk (rest.dropWhile (fun c => c ≠ '/'))
    let hostname : String := String.mk ((netloc.takeWhile (fun c => c ≠ ':')).map charLower)
    let portPart := (netloc.dropWhile (fun c => c ≠ ':')).drop 1
    if portPart.isEmpty then
      "rtsp" ++ "://" ++ (hostname ++ ":554") ++ path
    else url

/-! ## Media profile extraction (profile.py / snapshot.py) -/

/-- A parsed XML element, reduced to its attribute map. -/
structure XmlElem where
  attrs : List (String × String)
deriving DecidableEq, Repr

/-- `Element.get(key, default)`. -/
def XmlElem.getAttr (e : XmlElem) (key dflt : String) : String :=
  match e.attrs.find? (fun p => p.1 == key) with
  | some p => p.2
  | none => dflt

/-- The token/name extraction and filtering loop shared by
`MediaProfileHandler.get_media_profiles` (profile.py lines 41-47) and
`ONVIFSnapshot._get_media_profiles` (snapshot.py lines 94-105): for each
found profile element, read `token` and `name` attributes with default
`""` and append the pair only when the token is nonempty.  The input is
the element list the `findall` queries produced. -/
def get_media_profiles : List XmlElem → List (String × String)
  | [] => []
  | profile :: rest =>
      let profile_info := (profile.getAttr "token" "", profile.getAttr "name" "")
      if profile_info.1 ≠ "" then profile_info :: get_media_profiles rest
      else get_media_profiles rest

/-- Outcome of one media-service endpoint in
`ONVIFSnapshot._get_media_profiles`: `raised` when `requests.post` or
`ET.fromstring` raised (caught by the inner handler), otherwise the HTTP
status together with the profile elements the `findall` queries would
locate (consulted only on status 200). -/
inductive SoapResp where
  | raised
  | resp (status : Nat) (elements : List XmlElem)
deriving DecidableEq, Repr

/-- Endpoint loop of `ONVIFSnapshot._get_media_profiles` (snapshot.py
lines 62-112); `net` maps each media service path to the outcome of
posting the GetProfiles envelope at that endpoint. -/
def media_profiles_loop (net : String → SoapResp) : List String → List (String × String)
  | [] => []
  | service_path :: rest =>
      match net service_path with
      | SoapResp.raised => media_profiles_loop net rest
      | SoapResp.resp status elements =>
          if status == 200 then
            let profiles := get_media_profiles elements
            if profiles.isEmpty then media_profiles_loop net rest
            else profiles
          else media_profiles_loop net rest

/-- The fields of `ONVIFDevice` (models.py) consumed by snapshot.py. -/
structure ONVIFDevice where
  name : String
  address : String
  urls : List String
  valid_credentials : List (String × String × String)
deriving DecidableEq, Repr

/-- `ONVIFSnapshot._get_media_profiles` with its outer handler:
`device.urls[0]` raises `IndexError` when `urls` is empty, which the
outer `except` turns into the empty list. -/
def _get_media_profiles (d : ONVIFDevice) (net : String → SoapResp) :
    List (String × String) :=
  match d.urls with
  | [] => []
  | _ :: _ => media_profiles_loop net (get_context d.name).media_services

/-- Spec-side view of a single endpoint attempt: `some profiles` exactly
when the endpoint returns status 200 and at least one profile with a
nonempty token. -/
def endpoint_hit (r : SoapResp) : Option (List (String × String)) :=
  match r with
  | SoapResp.raised => none
  | SoapResp.resp status elements =>
      if status == 200 then
        let profiles := get_media_profiles elements
        if profiles.isEmpty then none else some profiles
      else none

/-! ## `ONVIFSnapshotBase._try_snapshot_url` (base.py)

base.py line 2 reads `from datetime import time`, so the name `time`
is bound to the `datetime.time` class.  That class has no attribute
`time` and no attribute `sleep`; evaluating `time.time()` or
`time.sleep(...)` raises `AttributeError`. -/

inductive PyExc where
  | attributeError
  | timeoutExc
  | requestException
deriving DecidableEq, Repr

/-- `time.time()` with `time = datetime.time`: attribute lookup fails. -/
def time_time : Except PyExc Nat := Except.error PyExc.attributeError

/-- `time.sleep(0.5 * (attempt + 1))` with `time = datetime.time`:
attribute lookup fails.  The argument records the attempt index (the
intended delay is 0.5 s times `attempt + 1`). -/
def time_sleep (_ : Nat) : Except PyExc Unit := Except.error PyExc.attributeError

/-- Control-flow outcome of one iteration of the attempt loop: an early
`return`, a `break`, falling through to the next iteration, or an
exception leaving the `try` body. -/
inductive AttemptOut where
  | ret (v : Option (List Nat))
  | brk
  | fall
  | raised (e : PyExc)
deriving DecidableEq, Repr

/-- One iteration of the attempt loop of
`ONVIFSnapshotBase._try_snapshot_url` (base.py lines 68-104), before the
`except` clauses are applied.  `net` models `self.session.get`, keyed by
the full requested URL, with `Except.error` for a raised transport
exception.  The second component lists the URLs actually requested
during the iteration. -/
def base_attempt (net : String → Except PyExc HttpResp) (url : String)
    (attempt max_retries : Nat) : AttemptOut × List String :=
  match time_time with
  | Except.error e => (AttemptOut.raised e, [])
  | Except.ok t =>
      let cache_buster := "nocache=" ++ toString t
      let url_with_cache_buster := url ++ (if pyIn "?" url then "&" else "?") ++ cache_buster
      match net url_with_cache_buster with
      | Except.error e => (AttemptOut.raised e, [url_with_cache_buster])
      | Except.ok response =>
          let checked :=
            if response.status == 200 then
              if pyIn "image/" (pyLower response.contentType) then
                if _is_valid_image response.body then AttemptOut.ret (some response.body)
                else AttemptOut.fall
              else AttemptOut.fall
            else if response.status == 401 then AttemptOut.brk
            else AttemptOut.fall
          let out :=
            match checked with
            | AttemptOut.fall =>
                if attempt < max_retries - 1 then
                  match time_sleep (attempt + 1) with
                  | Except.error e => AttemptOut.raised e
                  | Except.ok _ => AttemptOut.fall
                else AttemptOut.fall
            | o => o
          (out, [url_with_cache_buster])

/-- The attempt loop `for attempt in range(self.max_retries)` with its
exception handlers: `Timeout` and `RequestException` are swallowed (the
next attempt runs), any other exception propagates out of the function;
exhausting the loop returns `None`.  The result pairs the outcome
(`Except.error` = an uncaught Python exception) with the accumulated
list of requested URLs. -/
def try_snapshot_url_go (net : String → Except PyExc HttpResp) (url : String)
    (max_retries : Nat) : Nat → Nat → Except PyExc (Option (List Nat)) × List String
  | 0, _ => (Except.ok none, [])
  | fuel + 1, attempt =>
      match base_attempt net url attempt max_retries with
      | (AttemptOut.ret v, log) => (Except.ok v, log)
      | (AttemptOut.brk, log) => (Except.ok none, log)
      | (AttemptOut.fall, log) =>
          let next := try_snapshot_url_go net url max_retries fuel (attempt + 1)
          (next.1, log ++ next.2)
      | (AttemptOut.raised e, log) =>
          if e == PyExc.timeoutExc || e == PyExc.requestException then
            let next := try_snapshot_url_go net url max_retries fuel (attempt + 1)
            (next.1, log ++ next.2)
          else (Except.error e, log)

/-- `ONVIFSnapshotBase._try_snapshot_url`; the constructor default is
`max_retries = 3`. -/
def try_snapshot_url_base (net : String → Except PyExc HttpResp) (url : String)
    (max_retries : Nat) : Except PyExc (Option (List Nat)) × List String :=
  try_snapshot_url_go net url max_retries max_retries 0

/-! ## `ONVIFSnapshot.capture_snapshot` (snapshot.py) -/

/-- Observable side effects of the acquisition entry point. -/
inductive Effect where
  | makedirs
  | probe
  | soap
  | extract
  | writeFile
deriving DecidableEq, Repr

/-- RTSP fallback loop of `capture_snapshot` (Method 2, snapshot.py lines
325-333): for each profile, resolve a stream URL (a SOAP interaction)
and, when one is found, invoke the ffmpeg frame extraction; the first
successful extraction returns its output path. -/
def rtsp_fallback (get_stream : String → Option String) (ffmpeg : String → Option String) :
    List (String × String) → List Effect → Option String × List Effect
  | [], effs => (none, effs)
  | profile :: rest, effs =>
      let effs := effs ++ [Effect.soap]
      match get_stream profile.1 with
      | some rtsp_url =>
          let effs := effs ++ [Effect.extract]
          match ffmpeg rtsp_url with
          | some result => (some result, effs)
          | none => rtsp_fallback get_stream ffmpeg rest effs
      | none => rtsp_fallback get_stream ffmpeg rest effs

/-- `ONVIFSnapshot.capture_snapshot`, with side effects recorded in an
explicit log.  Oracles: `probe_urls` models `self._try_device_urls`,
`fetch` the verification GET of the found URL, `profiles` the result of
`self._get_media_profiles`, `get_stream` the per-token
`self._get_rtsp_stream_url`, and `ffmpeg` the `self._capture_rtsp_frame`
call.  The guard `if not device.valid_credentials: return None` runs
before `os.makedirs` and before any oracle is consulted. -/
def capture_snapshot (d : ONVIFDevice) (output_path : String)
    (probe_urls : (String × String × String) → Option String)
    (fetch : String → HttpResp)
    (profiles : (String × String × String) → List (String × String))
    (get_stream : String → Option String)
    (ffmpeg : String → Option String) : Option String × List Effect :=
  match d.valid_credentials with
  | [] => (none, [])
  | cred :: _ =>
      let effs := [Effect.makedirs, Effect.probe]
      let snapshot_url := probe_urls cred
      let method2 := rtsp_fallback get_stream ffmpeg (profiles cred) (effs ++ [Effect.soap])
      match snapshot_url with
      | some url =>
          let response := fetch url
          if response.status == 200 ∧ pyStarts response.contentType "image/" then
            (some output_path, effs ++ [Effect.writeFile])
          else method2
      | none => method2

/-! ## Claim theorems -/

/-- C1: in both probing variants a probe response counts as a hit only if
its content type indicates an image: a 200 response with content type
`text/html` is never a hit regardless of declared length or body, and a
200 response whose body carries the JPEG signature `FF D8 FF` but whose
content type is `application/octet-stream` is rejected — the content-type
check is applied before the signature check ever runs. -/
theorem claim_C1_content_type_gates_hit :
    (∀ len body, try_snapshot_url_legacy ⟨200, "text/html", len, body⟩ = false) ∧
    (∀ len body, classify_response_base ⟨200, "text/html", len, body⟩ = none) ∧
    (∀ len body, startsL [0xff, 0xd8, 0xff] body = true →
      try_snapshot_url_legacy ⟨200, "application/octet-stream", len, body⟩ = false) ∧
    (∀ len body, startsL [0xff, 0xd8, 0xff] body = true →
      classify_response_base ⟨200, "application/octet-stream", len, body⟩ = none) := by
  refine ⟨?_, ?_, ?_, ?_⟩
  · intro len body
    have h : pyStarts "text/html" "image/" = false := by decide
    simp [try_snapshot_url_legacy, h]
  · intro len body
    have h : pyIn "image/" (pyLower "text/html") = false := by decide
    simp [classify_response_base, h]
  · intro len body _
    have h : pyStarts "application/octet-stream" "image/" = false := by decide
    simp [try_snapshot_url_legacy, h]
  · intro len body _
    have h : pyIn "image/" (pyLower "application/octet-stream") = false := by decide
    simp [classify_response_base, h]

/-- Witness for C1 at a concrete JPEG-signature body served as
`application/octet-stream`. -/
theorem claim_C1_witness :
    startsL [0xff, 0xd8, 0xff] [0xff, 0xd8, 0xff, 0xe0, 0x00] = true ∧
    try_snapshot_url_legacy
      ⟨200, "application/octet-stream", 5000, [0xff, 0xd8, 0xff, 0xe0, 0x00]⟩ = false ∧
    classify_response_base
      ⟨200, "application/octet-stream", 5000, [0xff, 0xd8, 0xff, 0xe0, 0x00]⟩ = none :=
  ⟨by decide,
   claim_C1_content_type_gates_hit.2.2.1 5000 [0xff, 0xd8, 0xff, 0xe0, 0x00] (by decide),
   claim_C1_content_type_gates_hit.2.2.2 5000 [0xff, 0xd8, 0xff, 0xe0, 0x00] (by decide)⟩

/-- C5: the claim says a failed attempt in the hardened prober is retried
up to `max_retries` with a 0.5 s × attempt backoff, 401 aborting retries
and returning `None`.  The code instead raises `AttributeError` on the
very first attempt — `from datetime import time` binds `time` to the
`datetime.time` class, so `time.time()` fails before any request is
made, and `AttributeError` is not among the caught exception classes.
At the default `max_retries = 3`, for every network behaviour and URL,
the attempt body raises and the whole call propagates the exception
instead of retrying or returning `None`. -/
theorem claim_C5_retry_loop_raises :
    ∀ (net : String → Except PyExc HttpResp) (url : String),
      base_attempt net url 0 3 = (AttemptOut.raised PyExc.attributeError, []) ∧
      (try_snapshot_url_base net url 3).1 = Except.error PyExc.attributeError := by
  intro net url
  exact ⟨rfl, rfl⟩

/-- C6: the claim says a cache-busting parameter derived from the current
time is appended to every request and the attempt completes normally.
Because `time.time()` raises `AttributeError` (see C5), no request is
ever issued (the request log is empty, so no cache-busted URL is
requested) and the call raises instead of completing normally. -/
theorem claim_C6_cache_buster_never_sent :
    ∀ (net : String → Except PyExc HttpResp) (url : String),
      try_snapshot_url_base net url 3 = (Except.error PyExc.attributeError, []) := by
  intro net url
  rfl

/-- C7: stream URL normalization maps `"/stream1"` with host `cam1` to
`rtsp://cam1:554/stream1`; injects the default port into
`rtsp://cam1/stream1`; leaves `rtsp://cam1:8554/stream1` unchanged; and
prefixes every non-scheme-qualified input lacking a leading slash with
`/` before combining it with the host and port 554. -/
theorem claim_C7_normalize_rtsp_url :
    normalize_rtsp_url "/stream1" "cam1" = "rtsp://cam1:554/stream1" ∧
    normalize_rtsp_url "rtsp://cam1/stream1" "cam1" = "rtsp://cam1:554/stream1" ∧
    normalize_rtsp_url "rtsp://cam1:8554/stream1" "cam1" = "rtsp://cam1:8554/stream1" ∧
    ∀ url host, pyStarts url "rtsp://" = false → pyStarts url "/" = false →
      normalize_rtsp_url url host = "rtsp://" ++ host ++ ":554" ++ ("/" ++ url) := by
  refine ⟨by decide, by decide, by decide, ?_⟩
  intro url host h1 h2
  simp [normalize_rtsp_url, h1, h2]

/-- Witness for C7 on the relative path `"stream1"` (no leading slash). -/
theorem claim_C7_witness :
    pyStarts "stream1" "rtsp://" = false ∧
    normalize_rtsp_url "stream1" "cam1" = "rtsp://" ++ "cam1" ++ ":554" ++ ("/" ++ "stream1") :=
  ⟨by decide, claim_C7_normalize_rtsp_url.2.2.2 "stream1" "cam1" (by decide) (by decide)⟩

/-- C9: a device with an empty credential list makes the acquisition
entry point fail immediately (result `none`, the no-credentials outcome)
with an empty effect log: no directory creation, no probe, no SOAP call,
no frame extraction and no output artifact. -/
theorem claim_C9_no_credentials_fails_first (d : ONVIFDevice) (output_path : String)
    (probe_urls : (String × String × String) → Option String) (fetch : String → HttpResp)
    (profiles : (String × String × String) → List (String × String))
    (get_stream : String → Option String) (ffmpeg : String → Option String)
    (h : d.valid_credentials = []) :
    capture_snapshot d output_path probe_urls fetch profiles get_stream ffmpeg = (none, []) := by
  unfold capture_snapshot
  rw [h]

/-- Witness for C9 on a concrete credential-less device. -/
theorem claim_C9_witness :
    capture_snapshot ⟨"cam", "192.168.1.10", ["http://192.168.1.10:80/onvif/device_service"], []⟩
      "snapshots/out.jpg" (fun _ => none) (fun _ => ⟨404, "", 0, []⟩) (fun _ => [])
      (fun _ => none) (fun _ => none) = (none, []) :=
  claim_C9_no_credentials_fails_first _ _ _ _ _ _ _ rfl

/-- C10: every profile returned by media-profile extraction has a
nonempty token — elements whose `token` attribute is missing or empty
are filtered out of the result. -/
theorem claim_C10_tokens_nonempty (elements : List XmlElem) (p : String × String)
    (hp : p ∈ get_media_profiles elements) : p.1 ≠ "" := by
  induction elements with
  | nil => simp [get_media_profiles] at hp
  | cons profile rest ih =>
      simp only [get_media_profiles] at hp
      split at hp
      · rename_i h
        rcases List.mem_cons.mp hp with h1 | h2
        · rw [h1]; exact h
        · exact ih h2
      · exact ih hp

/-- Witness for C10 on a concrete response holding one tokenless element
and one tokened element. -/
theorem claim_C10_witness :
    (("Profile_1", "MainStream") : String × String).1 ≠ "" :=
  claim_C10_tokens_nonempty
    [⟨[("name", "NoToken")]⟩, ⟨[("token", "Profile_1"), ("name", "MainStream")]⟩]
    ("Profile_1", "MainStream") (by decide)

/-- The inner path loop returns the first hit among the URLs built from
one port, in path order. -/
theorem try_paths_eq_find (scheme host : String) (hit : String → Bool) (port : Nat)
    (paths : List String) :
    try_paths scheme host hit port paths =
      (paths.map fun path => probe_url scheme host port path).find? hit := by
  induction paths with
  | nil => rfl
  | cons p rest ih =>
      by_cases h : hit (probe_url scheme host port p) = true
      · simp [try_paths, h]
      · simp [try_paths, h, ih]

/-- The nested loop returns the first hit among all (port, path)
combinations, ports varying slower. -/
theorem try_ports_eq_find (scheme host : String) (hit : String → Bool)
    (paths : List String) (ports : List Nat) :
    try_ports scheme host hit paths ports =
      (ports.flatMap fun port =>
        paths.map fun path => probe_url scheme host port path).find? hit := by
  induction ports with
  | nil => rfl
  | cons po rest ih =>
      rw [List.flatMap_cons, List.find?_append]
      cases hfind : (paths.map fun path => probe_url scheme host po path).find? hit with
      | some u => simp [try_ports, try_paths_eq_find, hfind]
      | none => simp [try_ports, try_paths_eq_find, hfind, ih]

/-- C2: the direct-fetch prober probes the device own port first and
exactly once (even when it also occurs in the vendor catalog), keeps
every other catalog port with its original multiplicity, iterates ports
in the outer loop and paths in the inner loop, returns the first URL
whose probe hits, and returns `none` exactly when every combination
fails. -/
theorem claim_C2_probe_order (scheme host : String) (device_port : Nat)
    (ctx : DeviceContext) (hit : String → Bool) :
    (probe_ports device_port ctx).head? = some device_port ∧
    (probe_ports device_port ctx).count device_port = 1 ∧
    (∀ p, p ≠ device_port → (probe_ports device_port ctx).count p = ctx.ports.count p) ∧
    try_device_urls scheme host device_port ctx hit =
      (probe_combos scheme host device_port ctx).find? hit ∧
    (try_device_urls scheme host device_port ctx hit = none ↔
      ∀ url ∈ probe_combos scheme host device_port ctx, hit url = false) := by
  have hcombos : try_device_urls scheme host device_port ctx hit =
      (probe_combos scheme host device_port ctx).find? hit := by
    simp only [try_device_urls, probe_combos]
    exact try_ports_eq_find scheme host hit (get_all_paths ctx) (probe_ports device_port ctx)
  refine ⟨rfl, ?_, ?_, hcombos, ?_⟩
  · rw [probe_ports, List.count_cons_self]
    have hzero : (ctx.ports.filter fun p => p ≠ device_port).count device_port = 0 := by
      rw [List.count_eq_zero]
      intro hmem
      have := (List.mem_filter.mp hmem).2
      simp at this
    rw [hzero]
  · intro p hp
    rw [probe_ports, List.count_cons, List.count_filter (by simp [hp])]
    simp [Ne.symm hp]
  · rw [hcombos, List.find?_eq_none]
    constructor
    · intro hnone url hurl
      have := hnone url hurl
      simpa using this
    · intro hall url hurl
      simp [hall url hurl]

/-- C3: any device name containing some vendor keyword as a
case-insensitive substring is matched to the first matching profile in
catalog order, which is a vendor (non-generic) profile; the empty name
and names matching no keywords get the generic profile; matching is a
total function. -/
theorem claim_C3_vendor_matching :
    (∀ (device_name : String) (ctx : DeviceContext) (keyword : String),
        ctx ∈ DEVICE_CONTEXTS → keyword ∈ ctx.keywords →
        pyIn (pyLower keyword) (pyLower device_name) = true →
        ∃ c, get_context device_name = c ∧ c.matches device_name = true ∧ c.keywords ≠ [] ∧
          DEVICE_CONTEXTS.find? (fun x => x.matches device_name) = some c) ∧
    (∀ device_name, (DEVICE_CONTEXTS.all fun c => !c.matches device_name) = true →
        get_context device_name = genericContext) ∧
    get_context "" = genericContext := by
  refine ⟨?_, ?_, by decide⟩
  · intro device_name ctx keyword hctx hkw hsub
    have hm : ctx.matches device_name = true := by
      simp only [DeviceContext.matches, List.any_eq_true]
      exact ⟨keyword, hkw, hsub⟩
    have hsome : (DEVICE_CONTEXTS.find? fun x => x.matches device_name).isSome := by
      rw [List.find?_isSome]
      exact ⟨ctx, hctx, hm⟩
    obtain ⟨c, hc⟩ := Option.isSome_iff_exists.mp hsome
    have hcp0 := List.find?_some hc
    have hcp : c.matches device_name = true := hcp0
    have hne : device_name ≠ "" := by
      intro h0
      subst h0
      have hnone : DEVICE_CONTEXTS.find? (fun x => x.matches "") = none := by decide
      rw [hnone] at hc
      cases hc
    refine ⟨c, ?_, hcp, ?_, hc⟩
    · unfold get_context
      rw [if_neg hne, hc]
    · intro hk
      simp [DeviceContext.matches, hk] at hcp
  · intro device_name hall
    unfold get_context
    by_cases h0 : device_name = ""
    · rw [if_pos h0]
    · rw [if_neg h0]
      have hnone : DEVICE_CONTEXTS.find? (fun ctx => ctx.matches device_name) = none := by
        rw [List.find?_eq_none]
        intro x hx
        have := List.all_eq_true.mp hall x hx
        simp at this
        simp [this]
      rw [hnone]

/-- Witness for C3: a mixed-case name containing the keyword `hik`
resolves to the Hikvision profile, the first match in catalog order. -/
theorem claim_C3_witness :
    (hikvisionContext ∈ DEVICE_CONTEXTS ∧ "hik" ∈ hikvisionContext.keywords ∧
      pyIn (pyLower "hik") (pyLower "Driveway HiKVisioN DS-2CD") = true) ∧
    ∃ c, get_context "Driveway HiKVisioN DS-2CD" = c ∧
      c.matches "Driveway HiKVisioN DS-2CD" = true ∧ c.keywords ≠ [] ∧
      DEVICE_CONTEXTS.find? (fun x => x.matches "Driveway HiKVisioN DS-2CD") = some c :=
  ⟨by decide,
   claim_C3_vendor_matching.1 "Driveway HiKVisioN DS-2CD" hikvisionContext "hik"
     (by decide) (by decide) (by decide)⟩

/-- C4: for each non-generic vendor profile the expanded path list equals
the profile own paths followed by the generic paths, deduplicated
keeping the first occurrence in the original relative order, and it
contains no duplicates; for the generic profile the path list is
returned unchanged, with no self-append. -/
theorem claim_C4_expanded_paths :
    (get_all_paths tpLinkContext =
        specDedupKeepFirst (tpLinkContext.paths ++ genericContext.paths) ∧
      (get_all_paths tpLinkContext).Nodup) ∧
    (get_all_paths cpPlusContext =
        specDedupKeepFirst (cpPlusContext.paths ++ genericContext.paths) ∧
      (get_all_paths cpPlusContext).Nodup) ∧
    (get_all_paths hikvisionContext =
        specDedupKeepFirst (hikvisionContext.paths ++ genericContext.paths) ∧
      (get_all_paths hikvisionContext).Nodup) ∧
    (get_all_paths dahuaContext =
        specDedupKeepFirst (dahuaContext.paths ++ genericContext.paths) ∧
      (get_all_paths dahuaContext).Nodup) ∧
    get_all_paths genericContext = genericContext.paths := by
  refine ⟨⟨by decide, by decide⟩, ⟨by decide, by decide⟩, ⟨by decide, by decide⟩,
    ⟨by decide, by decide⟩, by decide⟩

/-- The endpoint loop settles on the first endpoint whose response is a
200 carrying at least one tokened profile; errors, non-200 statuses and
profile-less responses are skipped, and exhaustion gives the empty
list. -/
theorem media_profiles_loop_cons (net : String → SoapResp) (sp : String)
    (rest : List String) :
    media_profiles_loop net (sp :: rest) =
      (endpoint_hit (net sp)).getD (media_profiles_loop net rest) := by
  cases hnet : net sp with
  | raised => simp [media_profiles_loop, hnet, endpoint_hit]
  | resp status elements =>
      by_cases hs : status = 200
      · by_cases hp : get_media_profiles elements = []
        · simp [media_profiles_loop, hnet, endpoint_hit, hs, hp]
        · simp [media_profiles_loop, hnet, endpoint_hit, hs, hp]
      · simp [media_profiles_loop, hnet, endpoint_hit, hs]

theorem media_profiles_loop_eq (net : String → SoapResp) (endpoints : List String) :
    media_profiles_loop net endpoints =
      ((endpoints.findSome? fun sp => endpoint_hit (net sp)).getD []) := by
  induction endpoints with
  | nil => rfl
  | cons sp rest ih =>
      rw [media_profiles_loop_cons]
      cases hh : endpoint_hit (net sp) with
      | none =>
          rw [List.findSome?_cons_of_isNone _ (by simp [hh])]
          simp [ih]
      | some profiles =>
          rw [List.findSome?_cons_of_isSome _ (by simp [hh])]
          simp [hh]

/-- C8: profile listing tries the media service endpoints in order and
returns the profiles of the first endpoint yielding at least one,
without consulting later endpoints; per-endpoint transport and parse
errors are swallowed and the next endpoint tried; exhaustion of all
endpoints, or an outer error (a device with no URL), yields the empty
list instead of an exception. -/
theorem claim_C8_first_success_wins :
    (∀ (net : String → SoapResp) (endpoints : List String),
        media_profiles_loop net endpoints =
          ((endpoints.findSome? fun sp => endpoint_hit (net sp)).getD [])) ∧
    (∀ (name address : String) (creds : List (String × String × String))
        (net : String → SoapResp),
        _get_media_profiles ⟨name, address, [], creds⟩ net = []) := by
  refine ⟨media_profiles_loop_eq, ?_⟩
  intro name address creds net
  rfl

end OnvifScout
